import Mathlib

/-!
Shallow embedding of the ThemedImage Astro component of the evm.guide
repository: theme-aware image resolution.  The component normalizes a
dark and a light asset reference under the fixed root "/src/assets",
looks both keys up in the Asset Collection built by import.meta.glob,
throws if either key is missing, and otherwise renders two Image
elements whose class attributes control visibility by theme.
-/

namespace EvmGuide

/-- Semantics of the JavaScript test used by the component, namely
String.prototype.startsWith: the characters of the pattern form a
prefix of the characters of the string. -/
def jsStartsWith (s pat : String) : Bool :=
  pat.data.isPrefixOf s.data

/-- The glob pattern from which the Asset Collection is built, the
constant GLOB in the component source. -/
def GLOB : String :=
  "/src/assets/**/*.\x7bjpeg,jpg,png,gif,svg\x7d"

/-- Normalization of an asset reference, from the component source:
the fixed root "/src/assets", then a separator exactly when the raw
reference does not already start with one, then the raw reference. -/
def normalize (raw : String) : String :=
  "/src/assets" ++ (if jsStartsWith raw "/" then "" else "/") ++ raw

/-- Metadata of one discovered asset, the payload of a glob loader
(the loader is modelled as its already-forced payload). -/
structure ImageMetadata where
  src : String
deriving DecidableEq

/-- The Asset Collection built by import.meta.glob over GLOB: a
mapping from normalized asset path (exact string key) to loader. -/
abbrev AssetCollection := List (String × ImageMetadata)

/-- Key lookup in the Asset Collection, the expression images[key]
in the component source. -/
def lookupAsset (images : AssetCollection) (key : String) : Option ImageMetadata :=
  images.lookup key

/-- The props accepted by the component: dark and light references,
alt text, and an optional extra class. -/
structure Props where
  dark : String
  light : String
  alt : String
  «class» : Option String
deriving DecidableEq

/-- JavaScript template-literal interpolation of a possibly-undefined
string value: undefined interpolates as the text "undefined". -/
def jsString : Option String → String
  | some s => s
  | none => "undefined"

/-- Class attribute of the dark-variant element, from the template
literal in the component source. -/
def darkClass (c : Option String) : String :=
  "!hidden dark:!block " ++ jsString c

/-- Class attribute of the light-variant element, from the template
literal in the component source. -/
def lightClass (c : Option String) : String :=
  "block dark:hidden " ++ jsString c

/-- The error message thrown when a normalized key is absent from the
Asset Collection, from the template literal in the throw statements. -/
def missingError (key : String) : String :=
  "\"" ++ key ++ "\" does not exist in glob: \"" ++ GLOB ++ "\""

/-- One rendered Image element: resolved source metadata, alt text and
class attribute. -/
structure RenderedImage where
  src : ImageMetadata
  alt : String
  «class» : String
deriving DecidableEq

/-- The ThemedImage component body: normalize both references, check
the dark key then the light key against the Asset Collection, throw on
the first missing key, otherwise render the dark-variant and the
light-variant Image elements in that order. -/
def ThemedImage (images : AssetCollection) (p : Props) :
    Except String (RenderedImage × RenderedImage) :=
  let dark := normalize p.dark
  let light := normalize p.light
  match lookupAsset images dark with
  | none => .error (missingError dark)
  | some dMeta =>
    match lookupAsset images light with
    | none => .error (missingError light)
    | some lMeta =>
      .ok (⟨dMeta, p.alt, darkClass p.«class»⟩,
           ⟨lMeta, p.alt, lightClass p.«class»⟩)

/-- The component body with the Asset Collection threaded as explicit
state, making visible that every branch returns the collection it was
given: the component only reads the collection via key lookups. -/
def ThemedImageRun (images : AssetCollection) (p : Props) :
    Except String (RenderedImage × RenderedImage) × AssetCollection :=
  let dark := normalize p.dark
  let light := normalize p.light
  match lookupAsset images dark with
  | none => (.error (missingError dark), images)
  | some dMeta =>
    match lookupAsset images light with
    | none => (.error (missingError light), images)
    | some lMeta =>
      (.ok (⟨dMeta, p.alt, darkClass p.«class»⟩,
            ⟨lMeta, p.alt, lightClass p.«class»⟩), images)

/-- Containment of one string in another, as explicit decomposition. -/
def containsStr (m s : String) : Prop :=
  ∃ a b, m = a ++ s ++ b

/-- Display value of an element as far as the component's visibility
classes are concerned. -/
inductive Display where
  | block
  | hidden
deriving DecidableEq

/-- Modelled from the spec: the stylesheet semantics of the Tailwind
display utilities appearing in the component's class attributes (the
stylesheet itself is external to the repository).  A token optionally
carries the theme variant dark: (applies only when the active theme is
"dark") and the important marker bang; the base utilities are hidden
and block; any other token does not affect display. -/
def parseToken (t : String) : Option (Bool × Bool × Display) :=
  let cs := t.data
  let (dOnly, cs) :=
    if ("dark:".data).isPrefixOf cs then (true, cs.drop 5) else (false, cs)
  let (imp, cs) :=
    if cs.take 1 = ['!'] then (true, cs.drop 1) else (false, cs)
  if cs = "hidden".data then some (dOnly, imp, Display.hidden)
  else if cs = "block".data then some (dOnly, imp, Display.block)
  else none

/-- Modelled from the spec: application of one class token to the
current display declaration.  A token applies when its variant matches
the active theme; an applying declaration overrides the current one
unless the current one is important and the new one is not (an
important declaration loses only to a later important one, matching
the cascade order of the generated stylesheet). -/
def applyDecl (theme : String) (cur : Option (Display × Bool)) (t : String) :
    Option (Display × Bool) :=
  match parseToken t with
  | none => cur
  | some (dOnly, imp, d) =>
    if dOnly && !(theme == "dark") then cur
    else
      match cur with
      | none => some (d, imp)
      | some (c, cImp) => if cImp && !imp then some (c, cImp) else some (d, imp)

/-- Modelled from the spec: the display declaration an element ends up
with, folding its class tokens in order under the active theme. -/
def display (theme : String) (tokens : List String) : Option (Display × Bool) :=
  tokens.foldl (applyDecl theme) none

/-- Whitespace tokenization of a class attribute, as the browser
performs before matching stylesheet rules. -/
def classTokens (cls : String) : List String :=
  (List.splitOnP (· == ' ') cls.data).map String.mk

/-- Modelled from the spec: an element is visible unless its resolved
display declaration is hidden (an image element is visible under its
default display when no utility applies). -/
def isVisible (theme : String) (cls : String) : Bool :=
  match display theme (classTokens cls) with
  | some (Display.hidden, _) => false
  | _ => true

theorem missingError_contains_key (k : String) : containsStr (missingError k) k :=
  ⟨"\"", "\" does not exist in glob: \"" ++ GLOB ++ "\"",
    by simp [missingError, String.append_assoc]⟩

theorem missingError_contains_glob (k : String) : containsStr (missingError k) GLOB :=
  ⟨"\"" ++ k ++ "\" does not exist in glob: \"", "\"", rfl⟩

theorem missingError_inj {a b : String} (h : missingError a = missingError b) :
    a = b := by
  have hd := congrArg String.data h
  simp only [missingError, String.data_append] at hd
  exact String.ext (List.append_cancel_left
    (List.append_cancel_right (List.append_cancel_right (List.append_cancel_right hd))))

/-- C1: when at least one of the two normalized keys is absent from the
Asset Collection, resolution throws (returns an error) before either
image element is produced, and no ok result is emitted. -/
theorem resolution_fails_on_missing (images : AssetCollection) (p : Props)
    (h : lookupAsset images (normalize p.dark) = none
       ∨ lookupAsset images (normalize p.light) = none) :
    (∃ e, ThemedImage images p = Except.error e)
    ∧ ∀ out, ThemedImage images p ≠ Except.ok out := by
  have he : ∃ e, ThemedImage images p = Except.error e := by
    rcases h with h | h
    · exact ⟨missingError (normalize p.dark), by simp [ThemedImage, h]⟩
    · cases hd : lookupAsset images (normalize p.dark) with
      | none => exact ⟨missingError (normalize p.dark), by simp [ThemedImage, hd]⟩
      | some dMeta =>
        exact ⟨missingError (normalize p.light), by simp [ThemedImage, hd, h]⟩
  refine ⟨he, ?_⟩
  rcases he with ⟨e, he⟩
  intro out hout
  rw [he] at hout
  exact Except.noConfusion hout

/-- Witness for C1 at a concrete collection and props. -/
theorem resolution_fails_on_missing_witness :
    ThemedImage [("/src/assets/a.svg", ⟨"a"⟩)] ⟨"b.svg", "a.svg", "alt", none⟩
      ≠ Except.ok (⟨⟨"a"⟩, "alt", "x"⟩, ⟨⟨"a"⟩, "alt", "x"⟩) :=
  (resolution_fails_on_missing [("/src/assets/a.svg", ⟨"a"⟩)]
    ⟨"b.svg", "a.svg", "alt", none⟩ (Or.inl rfl)).2 _

/-- C2: when both normalized keys exist in the Asset Collection,
resolution succeeds and produces exactly the two image elements, and
any produced pair carries the caller-supplied alt text unchanged on
both elements. -/
theorem resolution_succeeds_on_present (images : AssetCollection) (p : Props)
    (dMeta lMeta : ImageMetadata)
    (hd : lookupAsset images (normalize p.dark) = some dMeta)
    (hl : lookupAsset images (normalize p.light) = some lMeta) :
    ThemedImage images p =
      Except.ok (⟨dMeta, p.alt, darkClass p.«class»⟩, ⟨lMeta, p.alt, lightClass p.«class»⟩)
    ∧ ∀ d l, ThemedImage images p = Except.ok (d, l) → d.alt = p.alt ∧ l.alt = p.alt := by
  have h1 : ThemedImage images p =
      Except.ok (⟨dMeta, p.alt, darkClass p.«class»⟩, ⟨lMeta, p.alt, lightClass p.«class»⟩) := by
    simp [ThemedImage, hd, hl]
  refine ⟨h1, ?_⟩
  intro d l h
  rw [h1] at h
  injection h with h2
  have h3 := congrArg Prod.fst h2
  have h4 := congrArg Prod.snd h2
  simp only [] at h3 h4
  constructor
  · rw [← h3]
  · rw [← h4]

/-- Witness for C2 at the spec's scenario inputs. -/
theorem resolution_succeeds_on_present_witness :
    ThemedImage
      [("/src/assets/concepts/calldata/dissection-dark.svg", ⟨"dd"⟩),
       ("/src/assets/concepts/calldata/dissection-light.svg", ⟨"dl"⟩)]
      ⟨"concepts/calldata/dissection-dark.svg", "concepts/calldata/dissection-light.svg",
       "Dissection", none⟩ =
    Except.ok (⟨⟨"dd"⟩, "Dissection", darkClass none⟩,
               ⟨⟨"dl"⟩, "Dissection", lightClass none⟩) :=
  (resolution_succeeds_on_present
    [("/src/assets/concepts/calldata/dissection-dark.svg", ⟨"dd"⟩),
     ("/src/assets/concepts/calldata/dissection-light.svg", ⟨"dl"⟩)]
    ⟨"concepts/calldata/dissection-dark.svg", "concepts/calldata/dissection-light.svg",
     "Dissection", none⟩ ⟨"dd"⟩ ⟨"dl"⟩ rfl rfl).1

/-- C3: normalization prepends the fixed root and inserts a separator
exactly when the reference does not already start with one. -/
theorem normalize_rel_abs (r : String) :
    (jsStartsWith r "/" = false → normalize r = "/src/assets" ++ "/" ++ r)
    ∧ (jsStartsWith r "/" = true → normalize r = "/src/assets" ++ r) := by
  constructor <;> intro h <;> simp [normalize, h]

/-- Witness for C3 at a relative and an absolute reference. -/
theorem normalize_rel_abs_witness :
    normalize "x.svg" = "/src/assets" ++ "/" ++ "x.svg"
    ∧ normalize "/y.svg" = "/src/assets" ++ "/y.svg" :=
  ⟨(normalize_rel_abs "x.svg").1 rfl, (normalize_rel_abs "/y.svg").2 rfl⟩

/-- C4: under every theme value, the dark-variant element is visible
exactly when the theme is dark, the light-variant element is visible
exactly when it is not, so exactly one of the two is visible. -/
theorem visibility_exclusive (theme : String) :
    isVisible theme (darkClass none) = (theme == "dark")
    ∧ isVisible theme (lightClass none) = !(theme == "dark")
    ∧ isVisible theme (darkClass none) ≠ isVisible theme (lightClass none) := by
  have hdc : darkClass none = "!hidden dark:!block undefined" := rfl
  have hlc : lightClass none = "block dark:hidden undefined" := rfl
  have ht1 : classTokens "!hidden dark:!block undefined" =
      ["!hidden", "dark:!block", "undefined"] := rfl
  have ht2 : classTokens "block dark:hidden undefined" =
      ["block", "dark:hidden", "undefined"] := rfl
  have hp1 : parseToken "!hidden" = some (false, true, Display.hidden) := rfl
  have hp2 : parseToken "dark:!block" = some (true, true, Display.block) := rfl
  have hp3 : parseToken "undefined" = none := rfl
  have hp4 : parseToken "block" = some (false, false, Display.block) := rfl
  have hp5 : parseToken "dark:hidden" = some (true, false, Display.hidden) := rfl
  cases hb : theme == "dark" <;>
    simp [hdc, hlc, isVisible, display, ht1, ht2, applyDecl, hp1, hp2, hp3, hp4, hp5, hb]

/-- C5: whichever normalized key is missing, the error message thrown
names that key and the discovery glob pattern. -/
theorem error_surfaces_key_and_glob (images : AssetCollection) (p : Props) :
    (lookupAsset images (normalize p.dark) = none →
      ThemedImage images p = Except.error (missingError (normalize p.dark))
        ∧ containsStr (missingError (normalize p.dark)) (normalize p.dark)
        ∧ containsStr (missingError (normalize p.dark)) GLOB)
    ∧ (∀ dMeta, lookupAsset images (normalize p.dark) = some dMeta →
        lookupAsset images (normalize p.light) = none →
        ThemedImage images p = Except.error (missingError (normalize p.light))
          ∧ containsStr (missingError (normalize p.light)) (normalize p.light)
          ∧ containsStr (missingError (normalize p.light)) GLOB) := by
  constructor
  · intro h
    exact ⟨by simp [ThemedImage, h], missingError_contains_key _, missingError_contains_glob _⟩
  · intro dMeta hd hl
    exact ⟨by simp [ThemedImage, hd, hl], missingError_contains_key _,
      missingError_contains_glob _⟩

/-- Witness for C5 at the spec's scenario input nonexistent.svg. -/
theorem error_surfaces_key_and_glob_witness :
    ThemedImage [("/src/assets/a.svg", ⟨"a"⟩)]
        ⟨"nonexistent.svg", "a.svg", "alt", none⟩ =
      Except.error (missingError (normalize "nonexistent.svg"))
    ∧ containsStr (missingError (normalize "nonexistent.svg")) (normalize "nonexistent.svg")
    ∧ containsStr (missingError (normalize "nonexistent.svg")) GLOB :=
  (error_surfaces_key_and_glob [("/src/assets/a.svg", ⟨"a"⟩)]
    ⟨"nonexistent.svg", "a.svg", "alt", none⟩).1 rfl

/-- C6: when the caller supplies the extra class, both rendered
elements' class strings contain it in addition to their visibility
rules. -/
theorem extra_class_in_both (images : AssetCollection) (p : Props) (s : String)
    (dMeta lMeta : ImageMetadata)
    (hc : p.«class» = some s)
    (hd : lookupAsset images (normalize p.dark) = some dMeta)
    (hl : lookupAsset images (normalize p.light) = some lMeta) :
    ThemedImage images p =
      Except.ok (⟨dMeta, p.alt, darkClass (some s)⟩, ⟨lMeta, p.alt, lightClass (some s)⟩)
    ∧ containsStr (darkClass (some s)) s
    ∧ containsStr (lightClass (some s)) s := by
  refine ⟨by simp [ThemedImage, hd, hl, hc], ?_, ?_⟩
  · exact ⟨"!hidden dark:!block ", "", by simp [darkClass, jsString]⟩
  · exact ⟨"block dark:hidden ", "", by simp [lightClass, jsString]⟩

/-- Witness for C6 with a concrete extra class. -/
theorem extra_class_in_both_witness :
    ThemedImage [("/src/assets/a.svg", ⟨"a"⟩), ("/src/assets/b.svg", ⟨"b"⟩)]
        ⟨"a.svg", "b.svg", "alt", some "mx-4"⟩ =
      Except.ok (⟨⟨"a"⟩, "alt", darkClass (some "mx-4")⟩,
                 ⟨⟨"b"⟩, "alt", lightClass (some "mx-4")⟩)
    ∧ containsStr (darkClass (some "mx-4")) "mx-4"
    ∧ containsStr (lightClass (some "mx-4")) "mx-4" :=
  extra_class_in_both _ _ "mx-4" _ _ rfl rfl rfl

/-- C7: resolution never mutates the Asset Collection: with the
collection threaded as explicit state, every invocation, successful or
failing, returns the collection it was given, and computes the same
result as the resolver. -/
theorem resolver_preserves_collection (images : AssetCollection) (p : Props) :
    (ThemedImageRun images p).2 = images
    ∧ (ThemedImageRun images p).1 = ThemedImage images p := by
  cases hd : lookupAsset images (normalize p.dark) <;>
    cases hl : lookupAsset images (normalize p.light) <;>
      simp [ThemedImageRun, ThemedImage, hd, hl]

/-- C8: when the optional class prop is absent, the interpolation still
occurs, so both class strings end with the literal text undefined. -/
theorem absent_class_renders_undefined (images : AssetCollection) (p : Props)
    (dMeta lMeta : ImageMetadata)
    (hc : p.«class» = none)
    (hd : lookupAsset images (normalize p.dark) = some dMeta)
    (hl : lookupAsset images (normalize p.light) = some lMeta) :
    ThemedImage images p =
      Except.ok (⟨dMeta, p.alt, darkClass none⟩, ⟨lMeta, p.alt, lightClass none⟩)
    ∧ darkClass none = "!hidden dark:!block " ++ "undefined"
    ∧ lightClass none = "block dark:hidden " ++ "undefined" := by
  exact ⟨by simp [ThemedImage, hd, hl, hc], rfl, rfl⟩

/-- Witness for C8 at a concrete collection and props. -/
theorem absent_class_renders_undefined_witness :
    ThemedImage [("/src/assets/a.svg", ⟨"a"⟩), ("/src/assets/b.svg", ⟨"b"⟩)]
        ⟨"a.svg", "b.svg", "alt", none⟩ =
      Except.ok (⟨⟨"a"⟩, "alt", darkClass none⟩, ⟨⟨"b"⟩, "alt", lightClass none⟩)
    ∧ darkClass none = "!hidden dark:!block " ++ "undefined"
    ∧ lightClass none = "block dark:hidden " ++ "undefined" :=
  absent_class_renders_undefined _ _ _ _ rfl rfl rfl

/-- C9: the dark reference is checked first: when both normalized keys
are absent, the thrown error names the dark key, and (when the two keys
differ) not the light key. -/
theorem dark_reference_checked_first (images : AssetCollection) (p : Props)
    (hd : lookupAsset images (normalize p.dark) = none)
    (_hl : lookupAsset images (normalize p.light) = none) :
    ThemedImage images p = Except.error (missingError (normalize p.dark))
    ∧ (normalize p.dark ≠ normalize p.light →
        ThemedImage images p ≠ Except.error (missingError (normalize p.light))) := by
  have h1 : ThemedImage images p = Except.error (missingError (normalize p.dark)) := by
    simp [ThemedImage, hd]
  refine ⟨h1, ?_⟩
  intro hne hcontra
  refine hne (missingError_inj ?_)
  injection h1.symm.trans hcontra

/-- Witness for C9 with both keys missing from an empty collection. -/
theorem dark_reference_checked_first_witness :
    ThemedImage [] ⟨"d.svg", "l.svg", "alt", none⟩ =
      Except.error (missingError (normalize "d.svg"))
    ∧ ThemedImage [] ⟨"d.svg", "l.svg", "alt", none⟩ ≠
      Except.error (missingError (normalize "l.svg")) := by
  have h := dark_reference_checked_first [] ⟨"d.svg", "l.svg", "alt", none⟩ rfl rfl
  exact ⟨h.1, h.2 (by decide)⟩

/-- C10: normalization is not injective: a reference not starting with
a separator and the same reference with a separator prepended are
distinct inputs normalizing to the same key. -/
theorem normalize_not_injective (s : String) (h : jsStartsWith s "/" = false) :
    "/" ++ s ≠ s ∧ normalize ("/" ++ s) = normalize s := by
  have hslash : ("/" : String).data = ['/'] := rfl
  constructor
  · intro he
    have hdata := congrArg String.data he
    simp only [String.data_append, hslash, List.cons_append, List.nil_append] at hdata
    exact List.cons_ne_self _ _ hdata
  · have hp : jsStartsWith ("/" ++ s) "/" = true := by
      simp [jsStartsWith, String.data_append, hslash, List.isPrefixOf]
    apply String.ext
    simp [normalize, h, hp, String.data_append]

/-- Witness for C10 at a concrete reference. -/
theorem normalize_not_injective_witness :
    "/" ++ "x.svg" ≠ "x.svg" ∧ normalize ("/" ++ "x.svg") = normalize "x.svg" :=
  normalize_not_injective "x.svg" rfl

